import Mathlib

/-!
Verification model of the Crate metadata enrichment pipeline
(`tools/enrich_metadata.py`).

The Python module is embedded shallowly: every pure helper becomes a
computable Lean function over `String`, `ℤ` and `ℚ` (Python floats are
idealised as rationals; all constants of the program are exact decimal
fractions).  External collaborators (MusicBrainz, Cover Art Archive,
iTunes, the filesystem) are modelled as function-valued parameters, as
the specification treats them as out of scope.  Wall-clock timestamps
are omitted from the records they decorate.
-/

attribute [local semireducible] Rat.mul Rat.inv Rat.add Rat.sub Rat.ofScientific

namespace Crate

/-! ## Python string primitives (ASCII semantics, as used by the program) -/

/-- Whitespace set recognised by the Python `str.split` / `str.strip`
used here (ASCII subset). -/
def isPySpace (c : Char) : Bool :=
  c = ' ' || c = '\t' || c = '\n' || c = '\r' || c = '\x0b' || c = '\x0c'

/-- Characters of a string after `str.strip()`. -/
def pyStripL (l : List Char) : List Char :=
  ((l.dropWhile isPySpace).reverse.dropWhile isPySpace).reverse

/-- String-level `str.strip()`. -/
def pyStripS (s : String) : String := String.mk (pyStripL s.data)

/-- Split into maximal runs separated by whitespace (helper for
`str.split()`); empty runs are filtered out by the callers. -/
def wordsR (l : List Char) : List (List Char) :=
  l.foldr
    (fun c ws =>
      if isPySpace c then [] :: ws
      else
        match ws with
        | [] => [[c]]
        | w :: rest => (c :: w) :: rest)
    []

/-- Python `s.split()`: whitespace-delimited tokens, no empties. -/
def pySplit (s : String) : List String :=
  ((wordsR s.data).filter (fun w => w ≠ [])).map String.mk

/-- Join token lists with single spaces, as in the join of `' '.join(...)`. -/
def joinSpL : List (List Char) → List Char
  | [] => []
  | [w] => w
  | w :: ws => w ++ ' ' :: joinSpL ws

/-- One pass of Python `str.replace(old, new)`: leftmost non-overlapping
occurrences, scanning left to right.  The fuel argument bounds the
recursion by the length of the subject and is always sufficient. -/
def replaceFuel (old new : List Char) : Nat → List Char → List Char
  | 0, l => l
  | _ + 1, [] => []
  | fuel + 1, c :: rest =>
    if old ≠ [] && old.isPrefixOf (c :: rest) then
      new ++ replaceFuel old new fuel (rest.drop (old.length - 1))
    else
      c :: replaceFuel old new fuel rest

/-- Python `str.replace(old, new)` on character lists. -/
def replWith (old new l : List Char) : List Char :=
  replaceFuel old new l.length l

/-- Model of `normalize` (enrich_metadata.py): lowercase, strip, delete
the noise substrings `feat.`, `ft.`, `featuring`, collapse whitespace. -/
def normalize (s : String) : String :=
  if s = "" then ""
  else
    let l := pyStripL (s.data.map Char.toLower)
    let l := replWith "feat.".data [' '] l
    let l := replWith "ft.".data [' '] l
    let l := replWith "featuring".data [' '] l
    String.mk (joinSpL ((wordsR l).filter (fun w => w ≠ [])))

/-- Model of `token_set`: the set of whitespace tokens of the normalized
string. -/
def token_set (s : String) : Finset String := (pySplit (normalize s)).toFinset

/-- Model of `string_similarity`: 0 on empty input, 1 on equal
normalizations, otherwise Jaccard overlap of token sets. -/
def string_similarity (a b : String) : ℚ :=
  if a = "" ∨ b = "" then 0
  else if normalize a = normalize b then 1
  else if token_set a = ∅ ∨ token_set b = ∅ then 0
  else ((token_set a ∩ token_set b).card : ℚ) / ((token_set a ∪ token_set b).card : ℚ)

/-! ## Python values as they appear in the track and candidate dicts -/

/-- A Python value stored in a track or candidate field: `None`, a
string, or an integer. -/
inductive PyVal where
  | none
  | str (s : String)
  | int (n : ℤ)
deriving DecidableEq

/-- Python `str(v)` for the values above. -/
def pyStr : PyVal → String
  | .none => "None"
  | .str s => s
  | .int n => toString n

/-- Python truthiness of an optional string field. -/
def truthyO : Option String → Bool
  | Option.none => false
  | Option.some s => !(s == "")

/-- Value of an `Option String` field viewed as a `PyVal`. -/
def optPV : Option String → PyVal
  | Option.none => PyVal.none
  | Option.some s => PyVal.str s

/-- Value of an `Option ℤ` field viewed as a `PyVal`. -/
def optIntPV : Option ℤ → PyVal
  | Option.none => PyVal.none
  | Option.some n => PyVal.int n

/-- Text of a field for the scorer: `str(v) if v else ''`. -/
def optStr (v : Option String) : String := v.getD ""

/-! ## Rounding (Python `round(x, n)` idealised over ℚ, ties to even) -/

/-- Round a rational to the nearest integer with ties going to the even
integer, as Python `round` does. -/
def pyRound (q : ℚ) : ℤ :=
  let f := Rat.floor q
  let frac := q - (f : ℚ)
  if frac < 1 / 2 then f
  else if 1 / 2 < frac then f + 1
  else if f % 2 = 0 then f else f + 1

/-- Python `round(q, n)`. -/
def roundTo (n : ℕ) (q : ℚ) : ℚ :=
  (pyRound (q * (10 : ℚ) ^ n) : ℚ) / (10 : ℚ) ^ n

/-! ## Configuration constants of the program -/

/-- `AUTO_ACCEPT_THRESHOLD = 0.85`. -/
def AUTO_ACCEPT_THRESHOLD : ℚ := 17 / 20

/-- `REVIEW_THRESHOLD = 0.50`. -/
def REVIEW_THRESHOLD : ℚ := 1 / 2

/-- `ART_UPGRADE_MARGIN = 10`. -/
def ART_UPGRADE_MARGIN : ℤ := 10

/-! ## Artwork selector -/

/-- Model of `ArtworkSelector.score_artwork`: resolution, source, type
and format points on a 0-100 scale. -/
def score_artwork (width : ℤ) (source : String) (art_type : String) (fmt : String) : ℤ :=
  let resPts : ℤ :=
    if width ≥ 1200 then 40
    else if width ≥ 1000 then 35
    else if width ≥ 500 then 20
    else if width ≥ 250 then 10
    else 0
  let srcPts : ℤ :=
    if source = "coverartarchive" then 30
    else if source = "itunes" then 25
    else if source = "discogs" then 20
    else if source = "existing" then 15
    else 0
  let typePts : ℤ :=
    if art_type = "front" then 20
    else if art_type = "unknown" then 10
    else 0
  let fl := String.mk (fmt.data.map Char.toLower)
  let fmtPts : ℤ :=
    if fl = "jpeg" ∨ fl = "jpg" then 10
    else if fl = "png" then 7
    else 0
  resPts + srcPts + typePts + fmtPts

/-- Model of `ArtworkSelector.should_upgrade`. -/
def should_upgrade (existing_score new_score : ℤ) : Bool :=
  decide (existing_score + ART_UPGRADE_MARGIN < new_score)

/-! ## Conflict resolver -/

/-- Result of `ConflictResolver.resolve`.  Each constructor carries the
extra dict entries the Python version returns; the associated action is
determined by the classification (`no_data`/`keep`,
`supplement`/`auto_fill`, `confirmed`/`keep`,
`likely_correction`/`flag_review`, `alternative`/`keep`). -/
inductive Resolution where
  | noData
  | supplement (value : PyVal)
  | confirmed
  | likelyCorrection (existing suggested : PyVal) (similarity : ℚ)
  | alternative (alt : PyVal)
deriving DecidableEq

/-- Presence test used by the resolver:
`v is not None and str(v).strip() != ''`. -/
def hasVal : PyVal → Bool
  | PyVal.none => false
  | v => !(pyStripS (pyStr v) == "")

/-- Model of `ConflictResolver.resolve`. -/
def resolve (field : String) (existingVal enrichedVal : PyVal)
    (sourceCount : ℕ := 1) : Resolution :=
  let _ := field
  if !hasVal enrichedVal then Resolution.noData
  else if !hasVal existingVal then Resolution.supplement enrichedVal
  else if (9 : ℚ) / 10 ≤ string_similarity (pyStr existingVal) (pyStr enrichedVal) then
    Resolution.confirmed
  else if 2 ≤ sourceCount then
    Resolution.likelyCorrection existingVal enrichedVal
      (roundTo 3 (string_similarity (pyStr existingVal) (pyStr enrichedVal)))
  else Resolution.alternative enrichedVal

/-! ## Data model: track records and candidate records -/

/-- A catalog track record, with the fields `enrich_track` reads.
Optional fields model Python keys holding `None` (or absent). -/
structure Track where
  id : String
  artist : Option String
  title : Option String
  album : Option String
  year : Option ℤ
  duration : Option ℤ
  genre : Option String
  original_filename : Option String
  artwork_path : Option String
deriving DecidableEq

/-- A candidate record as built by `MusicBrainzClient._query`: every key
is present, possibly holding `None`. -/
structure Candidate where
  title : Option String
  artist : Option String
  album : Option String
  year : Option ℤ
  duration : Option ℤ
  mb_recording_id : Option String
  mb_release_id : Option String
  mb_score : ℤ
  source : String
deriving DecidableEq

/-- Python `track.get(field)` for the fields the program reads. -/
def trackGet (t : Track) : String → PyVal
  | "id" => PyVal.str t.id
  | "artist" => optPV t.artist
  | "title" => optPV t.title
  | "album" => optPV t.album
  | "year" => optIntPV t.year
  | "duration" => optIntPV t.duration
  | "genre" => optPV t.genre
  | "original_filename" => optPV t.original_filename
  | "artwork_path" => optPV t.artwork_path
  | _ => PyVal.none

/-- Python `candidate.get(field)` (no `genre` key on candidates). -/
def candGet (c : Candidate) : String → PyVal
  | "title" => optPV c.title
  | "artist" => optPV c.artist
  | "album" => optPV c.album
  | "year" => optIntPV c.year
  | "duration" => optIntPV c.duration
  | "mb_recording_id" => optPV c.mb_recording_id
  | "mb_release_id" => optPV c.mb_release_id
  | "mb_score" => PyVal.int c.mb_score
  | "source" => PyVal.str c.source
  | _ => PyVal.none

/-! ## Match scorer -/

/-- Model of `MatchScorer._year_similarity`. -/
def yearSim : Option ℤ → Option ℤ → ℚ
  | Option.some a, Option.some b =>
    let d := (a - b).natAbs
    if d = 0 then 1
    else if d = 1 then 8 / 10
    else if d ≤ 3 then 4 / 10
    else 0
  | _, _ => 0

/-- Model of `MatchScorer._duration_similarity`. -/
def durationSim : Option ℤ → Option ℤ → ℚ
  | Option.some a, Option.some b =>
    let d := (a - b).natAbs
    if d ≤ 2 then 1
    else if d ≤ 5 then 7 / 10
    else if d ≤ 10 then 3 / 10
    else 0
  | _, _ => 0

/-- The weighted sum over `FIELD_WEIGHTS` computed by the scoring loop
(artist 0.35, title 0.35, album 0.15, year 0.10, duration 0.05). -/
def weightedTotal (t : Track) (c : Candidate) : ℚ :=
  (35 / 100 : ℚ) * string_similarity (optStr t.artist) (optStr c.artist)
    + (35 / 100 : ℚ) * string_similarity (optStr t.title) (optStr c.title)
    + (15 / 100 : ℚ) * string_similarity (optStr t.album) (optStr c.album)
    + (10 / 100 : ℚ) * yearSim t.year c.year
    + (5 / 100 : ℚ) * durationSim t.duration c.duration

/-- Model of `MatchScorer.score`: weighted sum, multi-source bonus
clamped to 1, rounded to 4 decimal places. -/
def score (t : Track) (c : Candidate) (sourceCount : ℕ := 1) : ℚ :=
  let total := weightedTotal t c
  let total :=
    if 3 ≤ sourceCount then min 1 (total + 10 / 100)
    else if 2 ≤ sourceCount then min 1 (total + 5 / 100)
    else total
  roundTo 4 total

/-! ## Enrichment result records -/

/-- A per-field conflict entry appended to `enrichment['conflicts']`. -/
inductive Conflict where
  | likelyCorrection (field : String) (existing suggested : PyVal) (similarity : ℚ)
  | alternative (field : String) (existing alt : PyVal)
deriving DecidableEq

/-- Whether a conflict entry is a `likely_correction`. -/
def Conflict.isLikelyCorrection : Conflict → Bool
  | .likelyCorrection _ _ _ _ => true
  | .alternative _ _ _ => false

/-- The `artwork` block attached to the enrichment record. -/
structure ArtDecision where
  available : Bool
  new_score : ℤ
  existing_score : ℤ
  upgrade : Bool
  source : String
deriving DecidableEq

/-- The enrichment record attached to a track (wall-clock timestamp
omitted; keys that a given code path never sets are `none`). -/
structure Enrichment where
  status : String
  match_confidence : ℚ
  source : Option String
  fields_updated : List String
  fields_confirmed : List String
  conflicts : List Conflict
  mb_recording_id : Option String
  mb_release_id : Option String
  artwork : Option ArtDecision
deriving DecidableEq

/-- One ranked candidate suggestion inside a review entry. -/
structure Suggestion where
  source : String
  confidence : ℚ
  fields : List (String × PyVal)
deriving DecidableEq

/-- A review queue entry.  The `conflicts` key is absent (`none`) in the
early `no_metadata` entry and present otherwise, as in the source. -/
structure Review where
  track_id : String
  filename : String
  reason : List String
  existing : List (String × PyVal)
  suggestions : List Suggestion
  conflicts : Option (List Conflict)
deriving DecidableEq

/-- The triple returned by `enrich_track`. -/
structure EnrichResult where
  enrichment : Enrichment
  review : Option Review
  updates : List (String × PyVal)
deriving DecidableEq

/-! ## External collaborators (reference lookup, artwork, downloads) -/

/-- The three query shapes `search_recordings` can issue. -/
inductive MBQuery where
  | artistTitle (artist title : String)
  | artistAlbum (artist album : String)
  | titleOnly (title : String)
deriving DecidableEq

/-- Artwork descriptor returned by an artwork collaborator. -/
structure ArtInfo where
  url : String
  width : ℤ
  typ : String
  format : String
  source : String
deriving DecidableEq

/-- The collaborator bundle `enrich_track` interacts with: the
MusicBrainz query function, the two artwork lookups, and the two
download functions (url, destination path, returning success). -/
structure Collab where
  mb : MBQuery → List Candidate
  caaArt : String → Option ArtInfo
  itunesArt : String → String → Option ArtInfo
  caaDownload : String → String → Bool
  itunesDownload : String → String → Bool

/-- Model of `MusicBrainzClient.search_recordings`: three query
strategies, each attempted only while no candidates were found. -/
def searchRecordings (q : MBQuery → List Candidate)
    (artist title album : Option String) : List Candidate :=
  let c1 : List Candidate :=
    if truthyO artist && truthyO title then
      q (MBQuery.artistTitle (artist.getD "") (title.getD ""))
    else []
  let c2 : List Candidate :=
    if truthyO artist && truthyO album && c1.isEmpty then
      c1 ++ q (MBQuery.artistAlbum (artist.getD "") (album.getD ""))
    else c1
  if truthyO title && c2.isEmpty then
    c2 ++ q (MBQuery.titleOnly (title.getD ""))
  else c2

/-! ## Candidate ranking -/

/-- Insert into a descending list, after any earlier element of equal
score (stability of the Python sort). -/
def insertDesc (x : ℚ × Candidate) : List (ℚ × Candidate) → List (ℚ × Candidate)
  | [] => [x]
  | y :: ys => if y.1 < x.1 then x :: y :: ys else y :: insertDesc x ys

/-- Stable descending sort by score, as `scored.sort(reverse=True)`. -/
def sortDesc (l : List (ℚ × Candidate)) : List (ℚ × Candidate) :=
  l.foldl (fun acc x => insertDesc x acc) []

/-- Score every candidate (default source count 1, as in the call site)
and sort descending by score. -/
def rankCandidates (t : Track) (cs : List Candidate) : List (ℚ × Candidate) :=
  sortDesc (cs.map (fun c => (score t c 1, c)))

/-! ## The per-track enrichment algorithm -/

/-- Fields iterated by the conflict-resolution loop. -/
def RESOLVE_FIELDS : List String := ["artist", "title", "album", "year", "genre"]

/-- Keys of `FIELD_WEIGHTS`, in insertion order. -/
def FIELD_WEIGHTS_KEYS : List String := ["artist", "title", "album", "year", "duration"]

/-- Accumulator of the conflict-resolution loop. -/
structure LoopState where
  confirmed : List String
  updated : List String
  conflicts : List Conflict
  updates : List (String × PyVal)
  reasons : List String
deriving DecidableEq

/-- One iteration of the loop over `RESOLVE_FIELDS` in `enrich_track`:
resolve the field (with the default source count of 1) and update the
accumulated lists.  Supplement values are written to `updates` only when
not in dry-run mode, mirroring the `if not dry_run` guard. -/
def fieldStep (bestScore : ℚ) (dryRun : Bool) (t : Track) (bc : Candidate)
    (st : LoopState) (field : String) : LoopState :=
  let existingVal := trackGet t field
  let enrichedVal := candGet bc field
  match resolve field existingVal enrichedVal 1 with
  | Resolution.confirmed => { st with confirmed := st.confirmed ++ [field] }
  | Resolution.supplement v =>
    if REVIEW_THRESHOLD ≤ bestScore then
      { st with
        updates := if dryRun then st.updates else st.updates ++ [(field, v)],
        updated := st.updated ++ [field] }
    else st
  | Resolution.likelyCorrection ex sug sim =>
    { st with
      conflicts := st.conflicts ++ [Conflict.likelyCorrection field ex sug sim],
      reasons := st.reasons ++ ["likely_correction:" ++ field] }
  | Resolution.alternative alt =>
    { st with conflicts := st.conflicts ++ [Conflict.alternative field existingVal alt] }
  | Resolution.noData => st

/-- Extra output of the artwork block: review reasons, update entries,
`fields_updated` entries, and the `artwork` decision record. -/
structure ArtOut where
  reasons : List String
  updates : List (String × PyVal)
  updated : List String
  dec : Option ArtDecision
deriving DecidableEq

/-- Model of the artwork section of `enrich_track`: Cover Art Archive
first (keyed by the winning release id), iTunes as fallback, scoring
against the fixed existing-artwork proxy, and download on upgrade when
not in dry-run mode. -/
def artworkStep (env : Collab) (outputDir : String) (skipArtwork dryRun : Bool)
    (track : Track) (best : Candidate) : ArtOut :=
  let a1 : Option ArtInfo :=
    if !skipArtwork && truthyO best.mb_release_id then
      env.caaArt (best.mb_release_id.getD "")
    else Option.none
  let artInfo : Option ArtInfo :=
    if !skipArtwork && a1.isNone && truthyO track.artist && truthyO track.title then
      env.itunesArt (track.artist.getD "") (track.title.getD "")
    else a1
  match artInfo with
  | Option.none => ⟨[], [], [], Option.none⟩
  | Option.some a =>
    if skipArtwork then ⟨[], [], [], Option.none⟩
    else
      let newScore := score_artwork a.width a.source a.typ a.format
      let existingScore : ℤ :=
        if truthyO track.artwork_path then score_artwork 500 "existing" "front" "jpeg" else 0
      let upgrade := should_upgrade existingScore newScore
      let dec : ArtDecision :=
        { available := true, new_score := newScore, existing_score := existingScore,
          upgrade := upgrade, source := a.source }
      let rs : List String :=
        if upgrade && truthyO track.artwork_path then ["artwork_upgrade_with_existing"] else []
      if upgrade && !dryRun then
        let ext := if a.format = "jpeg" ∨ a.format = "jpg" then "jpg" else "png"
        let path := outputDir ++ "/artwork/" ++ track.id ++ "_enriched." ++ ext
        let ok := if a.source = "itunes" then env.itunesDownload a.url path
                  else env.caaDownload a.url path
        if ok then ⟨rs, [("artwork_path", PyVal.str path)], ["artwork"], Option.some dec⟩
        else ⟨rs, [], [], Option.some dec⟩
      else ⟨rs, [], [], Option.some dec⟩

/-- One ranked suggestion for a review entry. -/
def mkSuggestion (c : Candidate) (s : ℚ) : Suggestion :=
  { source := c.source, confidence := s,
    fields := FIELD_WEIGHTS_KEYS.map (fun f => (f, candGet c f)) }

/-- The review entry built at the end of `enrich_track` when at least
one review reason accumulated. -/
def buildReview (t : Track) (best : Candidate) (bestScore : ℚ)
    (restScored : List (ℚ × Candidate)) (reasons : List String)
    (conflicts : List Conflict) : Review :=
  let suggestions :=
    [mkSuggestion best bestScore] ++
      (match restScored with
       | (s2, c2) :: _ => if REVIEW_THRESHOLD ≤ s2 then [mkSuggestion c2 s2] else []
       | [] => [])
  { track_id := t.id, filename := t.original_filename.getD "",
    reason := reasons,
    existing := RESOLVE_FIELDS.map (fun f => (f, trackGet t f)),
    suggestions := suggestions,
    conflicts := Option.some conflicts }

/-- Shared tail of `enrich_track` for the `auto_accepted` and
`review_needed` statuses: field-conflict loop, artwork block, and review
construction. -/
def enrichMain (env : Collab) (outputDir : String) (skipArtwork dryRun : Bool)
    (track : Track) (best : Candidate) (bestScore : ℚ)
    (restScored : List (ℚ × Candidate)) (status : String)
    (reasons0 : List String) : EnrichResult :=
  let st0 : LoopState := ⟨[], [], [], [], reasons0⟩
  let st1 := RESOLVE_FIELDS.foldl (fieldStep bestScore dryRun track best) st0
  let ao := artworkStep env outputDir skipArtwork dryRun track best
  let finalReasons := st1.reasons ++ ao.reasons
  let finalUpdates := st1.updates ++ ao.updates
  let finalUpdated := st1.updated ++ ao.updated
  { enrichment :=
      { status := status, match_confidence := bestScore,
        source := Option.some best.source,
        fields_updated := finalUpdated, fields_confirmed := st1.confirmed,
        conflicts := st1.conflicts,
        mb_recording_id := best.mb_recording_id,
        mb_release_id := best.mb_release_id, artwork := ao.dec },
    review :=
      if finalReasons = [] then Option.none
      else Option.some (buildReview track best bestScore restScored finalReasons st1.conflicts),
    updates := finalUpdates }

/-- Result of the early `no_metadata` exit (neither artist nor title). -/
def noMetadataResult (track : Track) : EnrichResult :=
  { enrichment :=
      { status := "no_metadata", match_confidence := 0, source := Option.none,
        fields_updated := [], fields_confirmed := [], conflicts := [],
        mb_recording_id := Option.none, mb_release_id := Option.none,
        artwork := Option.none },
    review := Option.some
      { track_id := track.id, filename := track.original_filename.getD "",
        reason := ["no_artist_or_title"],
        existing := FIELD_WEIGHTS_KEYS.map (fun f => (f, trackGet track f)),
        suggestions := [], conflicts := Option.none },
    updates := [] }

/-- Result of the `no_match` exit (lookup returned zero candidates). -/
def noMatchResult : EnrichResult :=
  { enrichment :=
      { status := "no_match", match_confidence := 0, source := Option.none,
        fields_updated := [], fields_confirmed := [], conflicts := [],
        mb_recording_id := Option.none, mb_release_id := Option.none,
        artwork := Option.none },
    review := Option.none, updates := [] }

/-- Result of the `below_threshold` exit (best score under `REVIEW`). -/
def belowThresholdResult (bestScore : ℚ) (best : Candidate) : EnrichResult :=
  { enrichment :=
      { status := "below_threshold", match_confidence := bestScore,
        source := Option.some best.source,
        fields_updated := [], fields_confirmed := [], conflicts := [],
        mb_recording_id := Option.none, mb_release_id := Option.none,
        artwork := Option.none },
    review := Option.none, updates := [] }

/-- The ambiguity check on the two top-ranked candidates: both at or
above `REVIEW`, gap under 0.10, titles normalizing differently. -/
def ambiguityReasons (bestScore : ℚ) (best : Candidate)
    (restScored : List (ℚ × Candidate)) : List String :=
  match restScored with
  | (secondScore, secondCand) :: _ =>
    if REVIEW_THRESHOLD ≤ secondScore ∧ bestScore - secondScore < 1 / 10 ∧
        normalize (pyStr (optPV best.title)) ≠ normalize (pyStr (optPV secondCand.title)) then
      ["multiple_high_confidence_disagree"]
    else []
  | [] => []

/-- Model of `enrich_track`: the full per-track decision procedure. -/
def enrichTrack (env : Collab) (outputDir : String) (skipArtwork dryRun : Bool)
    (track : Track) : EnrichResult :=
  if !truthyO track.artist && !truthyO track.title then noMetadataResult track
  else
    let candidates := searchRecordings env.mb track.artist track.title track.album
    if candidates.isEmpty then noMatchResult
    else
      match rankCandidates track candidates with
      | [] => noMatchResult
      | (bestScore, best) :: restScored =>
        let reasonsA := ambiguityReasons bestScore best restScored
        if AUTO_ACCEPT_THRESHOLD ≤ bestScore then
          enrichMain env outputDir skipArtwork dryRun track best bestScore restScored
            "auto_accepted" reasonsA
        else if REVIEW_THRESHOLD ≤ bestScore then
          enrichMain env outputDir skipArtwork dryRun track best bestScore restScored
            "review_needed" (reasonsA ++ ["confidence_between_0.50_and_0.85"])
        else belowThresholdResult bestScore best

/-! ## Offline fallback (`_normalize_input`, `_denormalize_output`,
`run_offline_fallback`) over a generic catalog -/

/-- The enrichment stub written by the offline fallback. -/
structure OfflineEnrichment where
  status : String
  reason : String
  timestamp : String
deriving DecidableEq

/-- A value stored in a generic catalog track dict: a primitive value or
an offline-enrichment sub-record. -/
inductive CatVal where
  | prim (v : PyVal)
  | enr (e : OfflineEnrichment)
deriving DecidableEq

/-- Python dict assignment on an association list: replace the value at
the first occurrence of the key, else append. -/
def assocSet {α : Type} : List (String × α) → String → α → List (String × α)
  | [], k, v => [(k, v)]
  | (k', v') :: rest, k, v =>
    if k' = k then (k, v) :: rest else (k', v') :: assocSet rest k v

/-- Python `dict.setdefault(k, v)`. -/
def setdefaultC (d : List (String × CatVal)) (k : String) (v : CatVal) :
    List (String × CatVal) :=
  if (List.lookup k d).isSome then d else d ++ [(k, v)]

/-- Truthiness of a catalog value. -/
def cvTruthy : CatVal → Bool
  | CatVal.prim v =>
    match v with
    | PyVal.none => false
    | PyVal.str s => !(s == "")
    | PyVal.int n => !(n == 0)
  | CatVal.enr _ => true

/-- The string a catalog value contributes as a dict key (the program
only ever uses string paths and ids here). -/
def cvKeyString : CatVal → String
  | CatVal.prim (PyVal.str s) => s
  | _ => ""

/-- The dict key chosen for a list-format track:
`track.get('path') or track['id']`. -/
def keyOf (t : List (String × CatVal)) : String :=
  match List.lookup "path" t with
  | Option.some v => if cvTruthy v then cvKeyString v else cvKeyString ((List.lookup "id" t).getD (CatVal.prim PyVal.none))
  | Option.none => cvKeyString ((List.lookup "id" t).getD (CatVal.prim PyVal.none))

/-- Python `s.split(sep)` on character lists: split at every separator,
keeping empty pieces. -/
def splitChar (sep : Char) (l : List Char) : List (List Char) :=
  l.foldr
    (fun c acc =>
      if c = sep then [] :: acc
      else
        match acc with
        | [] => [[c]]
        | w :: rest => (c :: w) :: rest)
    [[]]

/-- Python `key.split('/')[-1]`. -/
def basename (s : String) : String :=
  String.mk (((splitChar '/' s.data).getLast?).getD [])

/-- The key and the `setdefault`-completed dict of one list-format track
during input normalization. -/
def listTrackPrep (t : List (String × CatVal)) : String × List (String × CatVal) :=
  let key := keyOf t
  (key, setdefaultC t "original_filename" (CatVal.prim (PyVal.str (basename key))))

/-- Shape of the `tracks` value of an input catalog: dict-keyed
(`metadata_base.json`) or list-keyed (`manifest.json`). -/
inductive TracksShape where
  | dictKeyed (ts : List (String × List (String × CatVal)))
  | listKeyed (ts : List (List (String × CatVal)))
deriving DecidableEq

/-- A catalog file: its `tracks` value plus the other top-level keys. -/
structure RawCatalog where
  tracks : TracksShape
  meta : List (String × PyVal)
deriving DecidableEq

/-- Model of `_normalize_input`: dict-keyed input passes through; a
list-keyed input is rebuilt as a dict keyed by `path or id`, filling in
`original_filename` on each track. -/
def normalizeInput (raw : RawCatalog) :
    List (String × List (String × CatVal)) × String :=
  match raw.tracks with
  | TracksShape.dictKeyed ts => (ts, "metadata_base")
  | TracksShape.listKeyed ts =>
    (ts.foldl (fun acc t => assocSet acc (listTrackPrep t).1 (listTrackPrep t).2) [],
     "manifest")

/-- The enrichment stub value the offline fallback stores. -/
def offEnr (now : String) : CatVal :=
  CatVal.enr { status := "skipped", reason := "offline", timestamp := now }

/-- Model of `run_offline_fallback` composed with `_denormalize_output`:
every track of the normalized dict receives the skipped/offline
enrichment record, and the catalog is written back in its input shape
(list output regains a top-level `generated` timestamp). -/
def runOfflineFallback (now : String) (raw : RawCatalog) : RawCatalog :=
  let p := normalizeInput raw
  let tracksD2 := p.1.map (fun kt => (kt.1, assocSet kt.2 "enrichment" (offEnr now)))
  if p.2 = "manifest" then
    { tracks := TracksShape.listKeyed (tracksD2.map (fun kt => kt.2)),
      meta := assocSet raw.meta "generated" (PyVal.str now) }
  else
    { tracks := TracksShape.dictKeyed tracksD2, meta := raw.meta }

/-! ## Concrete fixtures used by the end-to-end theorems -/

/-- The candidate of the Bowie/Heroes end-to-end scenario. -/
def bowieCand : Candidate :=
  { title := Option.some "Heroes", artist := Option.some "David Bowie",
    album := Option.none, year := Option.some 1977, duration := Option.none,
    mb_recording_id := Option.some "rec1", mb_release_id := Option.none,
    mb_score := 100, source := "musicbrainz" }

/-- The existing track of the Bowie/Heroes end-to-end scenario. -/
def bowieTrack : Track :=
  { id := "t1", artist := Option.some "David Bowie", title := Option.some "Heroes",
    album := Option.none, year := Option.none, duration := Option.none,
    genre := Option.none, original_filename := Option.some "heroes.mp3",
    artwork_path := Option.none }

/-- Collaborators returning exactly the Bowie candidate and no artwork. -/
def bowieEnv : Collab :=
  { mb := fun _ => [bowieCand], caaArt := fun _ => Option.none,
    itunesArt := fun _ _ => Option.none, caaDownload := fun _ _ => false,
    itunesDownload := fun _ _ => false }

/-- A track used to exhibit the ambiguity trigger. -/
def ambTrack : Track :=
  { id := "w1", artist := Option.some "Bo", title := Option.some "a b c d e f g h i j",
    album := Option.some "Al", year := Option.some 2000, duration := Option.some 100,
    genre := Option.none, original_filename := Option.none, artwork_path := Option.none }

/-- A candidate agreeing with `ambTrack` on every field (score 1). -/
def ambCand1 : Candidate :=
  { title := Option.some "a b c d e f g h i j", artist := Option.some "Bo",
    album := Option.some "Al", year := Option.some 2000, duration := Option.some 100,
    mb_recording_id := Option.none, mb_release_id := Option.none,
    mb_score := 100, source := "musicbrainz" }

/-- A second candidate with a slightly different title (score 0.965). -/
def ambCand2 : Candidate :=
  { title := Option.some "a b c d e f g h i", artist := Option.some "Bo",
    album := Option.some "Al", year := Option.some 2000, duration := Option.some 100,
    mb_recording_id := Option.none, mb_release_id := Option.none,
    mb_score := 90, source := "musicbrainz" }

/-- Collaborators returning the two close candidates. -/
def ambEnv : Collab :=
  { mb := fun _ => [ambCand1, ambCand2], caaArt := fun _ => Option.none,
    itunesArt := fun _ _ => Option.none, caaDownload := fun _ _ => false,
    itunesDownload := fun _ _ => false }

/-- A track whose only candidate scores 0. -/
def lowTrack : Track :=
  { id := "l1", artist := Option.some "Aaa", title := Option.some "Bbb",
    album := Option.none, year := Option.none, duration := Option.none,
    genre := Option.none, original_filename := Option.none, artwork_path := Option.none }

/-- A candidate disagreeing with `lowTrack` on every field. -/
def lowCand : Candidate :=
  { title := Option.some "Qqq", artist := Option.some "Zzz",
    album := Option.none, year := Option.none, duration := Option.none,
    mb_recording_id := Option.none, mb_release_id := Option.none,
    mb_score := 10, source := "musicbrainz" }

/-- Collaborators returning only the low-scoring candidate. -/
def lowEnv : Collab :=
  { mb := fun _ => [lowCand], caaArt := fun _ => Option.none,
    itunesArt := fun _ _ => Option.none, caaDownload := fun _ _ => false,
    itunesDownload := fun _ _ => false }

/-! ## Helper lemmas -/

theorem fieldStep_reasons (bs : ℚ) (dr : Bool) (t : Track) (bc : Candidate)
    (st : LoopState) (f : String) :
    ∃ l, (fieldStep bs dr t bc st f).reasons = st.reasons ++ l := by
  unfold fieldStep
  rcases hres : resolve f (trackGet t f) (candGet bc f) 1 with _ | v | _ | ⟨ex, sug, sim⟩ | alt <;>
    simp only [hres]
  · exact ⟨[], by simp⟩
  · split
    · exact ⟨[], by simp⟩
    · exact ⟨[], by simp⟩
  · exact ⟨[], by simp⟩
  · exact ⟨["likely_correction:" ++ f], rfl⟩
  · exact ⟨[], by simp⟩

theorem foldl_fieldStep_reasons (bs : ℚ) (dr : Bool) (t : Track) (bc : Candidate) :
    ∀ (fs : List String) (st : LoopState),
      ∃ l, (List.foldl (fieldStep bs dr t bc) st fs).reasons = st.reasons ++ l := by
  intro fs
  induction fs with
  | nil => exact fun st => ⟨[], by simp⟩
  | cons f fs ih =>
    intro st
    obtain ⟨l1, h1⟩ := fieldStep_reasons bs dr t bc st f
    obtain ⟨l2, h2⟩ := ih (fieldStep bs dr t bc st f)
    exact ⟨l1 ++ l2, by rw [List.foldl_cons, h2, h1, List.append_assoc]⟩

theorem enrichMain_review_isSome (env : Collab) (outputDir : String)
    (sk dr : Bool) (t : Track) (best : Candidate) (bs : ℚ)
    (rest : List (ℚ × Candidate)) (status : String) (reasons0 : List String)
    (h : reasons0 ≠ []) :
    (enrichMain env outputDir sk dr t best bs rest status reasons0).review.isSome = true := by
  unfold enrichMain
  obtain ⟨l, hl⟩ := foldl_fieldStep_reasons bs dr t best RESOLVE_FIELDS ⟨[], [], [], [], reasons0⟩
  simp only [hl]
  simp [List.append_eq_nil, h]

theorem resolve_src1_ne_lc (f : String) (a b : PyVal) (ex sug : PyVal) (sim : ℚ) :
    resolve f a b 1 ≠ Resolution.likelyCorrection ex sug sim := by
  unfold resolve
  split_ifs <;> simp_all

theorem fieldStep_conflicts (bs : ℚ) (dr : Bool) (t : Track) (bc : Candidate)
    (st : LoopState) (f : String)
    (h : ∀ c ∈ st.conflicts, c.isLikelyCorrection = false) :
    ∀ c ∈ (fieldStep bs dr t bc st f).conflicts, c.isLikelyCorrection = false := by
  unfold fieldStep
  rcases hres : resolve f (trackGet t f) (candGet bc f) 1 with _ | v | _ | ⟨ex, sug, sim⟩ | alt <;>
    simp only [hres]
  · exact h
  · split
    · exact h
    · exact h
  · exact h
  · exact absurd hres (resolve_src1_ne_lc f (trackGet t f) (candGet bc f) ex sug sim)
  · intro c hc
    simp only [List.mem_append, List.mem_singleton] at hc
    rcases hc with hc | hc
    · exact h c hc
    · rw [hc]; rfl

theorem foldl_fieldStep_conflicts (bs : ℚ) (dr : Bool) (t : Track) (bc : Candidate) :
    ∀ (fs : List String) (st : LoopState),
      (∀ c ∈ st.conflicts, c.isLikelyCorrection = false) →
      ∀ c ∈ (List.foldl (fieldStep bs dr t bc) st fs).conflicts,
        c.isLikelyCorrection = false := by
  intro fs
  induction fs with
  | nil => exact fun st h => h
  | cons f fs ih =>
    intro st h
    exact ih (fieldStep bs dr t bc st f) (fieldStep_conflicts bs dr t bc st f h)

theorem enrichMain_conflicts (env : Collab) (outputDir : String)
    (sk dr : Bool) (t : Track) (best : Candidate) (bs : ℚ)
    (rest : List (ℚ × Candidate)) (status : String) (reasons0 : List String) :
    ∀ c ∈ (enrichMain env outputDir sk dr t best bs rest status reasons0).enrichment.conflicts,
      c.isLikelyCorrection = false := by
  unfold enrichMain
  exact foldl_fieldStep_conflicts bs dr t best RESOLVE_FIELDS ⟨[], [], [], [], reasons0⟩
    (by simp)

theorem enrichTrack_conflicts (env : Collab) (outputDir : String)
    (skipArtwork dryRun : Bool) (t : Track) :
    ∀ c ∈ (enrichTrack env outputDir skipArtwork dryRun t).enrichment.conflicts,
      c.isLikelyCorrection = false := by
  unfold enrichTrack
  dsimp only
  split
  · simp [noMetadataResult]
  · split
    · simp [noMatchResult]
    · split
      · simp [noMatchResult]
      · split
        · exact enrichMain_conflicts env outputDir skipArtwork dryRun t _ _ _ _ _
        · split
          · exact enrichMain_conflicts env outputDir skipArtwork dryRun t _ _ _ _ _
          · simp [belowThresholdResult]

theorem insertDesc_length (x : ℚ × Candidate) :
    ∀ l : List (ℚ × Candidate), (insertDesc x l).length = l.length + 1 := by
  intro l
  induction l with
  | nil => rfl
  | cons y ys ih =>
    unfold insertDesc
    split
    · simp
    · simp [ih]

theorem sortDesc_length_aux :
    ∀ (l : List (ℚ × Candidate)) (acc : List (ℚ × Candidate)),
      (l.foldl (fun acc x => insertDesc x acc) acc).length = acc.length + l.length := by
  intro l
  induction l with
  | nil => intro acc; simp
  | cons x xs ih =>
    intro acc
    rw [List.foldl_cons, ih (insertDesc x acc), insertDesc_length, List.length_cons]
    omega

theorem rankCandidates_length (t : Track) (cs : List Candidate) :
    (rankCandidates t cs).length = cs.length := by
  unfold rankCandidates sortDesc
  rw [sortDesc_length_aux]
  simp

theorem searchRecordings_ne_nil (q : MBQuery → List Candidate)
    (a ti al : Option String) (h : searchRecordings q a ti al ≠ []) :
    truthyO a = true ∨ truthyO ti = true := by
  cases ha : truthyO a with
  | true => exact Or.inl rfl
  | false =>
    cases hti : truthyO ti with
    | true => exact Or.inr rfl
    | false =>
      exact absurd (show searchRecordings q a ti al = [] by
        simp [searchRecordings, ha, hti]) h

/-! ## Claim theorems -/

/-- Claim C4: whenever the two top-ranked candidates both score at least
the REVIEW threshold 0.50, their gap is under 0.10, and their titles
normalize differently, `enrich_track` produces a review entry — in both
the auto-accepted and the review-needed branch. -/
theorem ambiguity_forces_review
    (env : Collab) (outputDir : String) (skipArtwork dryRun : Bool) (t : Track)
    (s0 : ℚ) (c0 : Candidate) (s1 : ℚ) (c1 : Candidate) (tl : List (ℚ × Candidate))
    (hr : rankCandidates t (searchRecordings env.mb t.artist t.title t.album)
            = (s0, c0) :: (s1, c1) :: tl)
    (h0 : REVIEW_THRESHOLD ≤ s0) (h1 : REVIEW_THRESHOLD ≤ s1)
    (hgap : s0 - s1 < 1 / 10)
    (hti : normalize (pyStr (optPV c0.title)) ≠ normalize (pyStr (optPV c1.title))) :
    (enrichTrack env outputDir skipArtwork dryRun t).review.isSome = true := by
  have hlen : (searchRecordings env.mb t.artist t.title t.album).length = tl.length + 2 := by
    have hq := rankCandidates_length t (searchRecordings env.mb t.artist t.title t.album)
    rw [hr] at hq
    simpa using hq.symm
  have hne : searchRecordings env.mb t.artist t.title t.album ≠ [] := by
    intro hh
    rw [hh] at hlen
    simp at hlen
  have hmeta := searchRecordings_ne_nil _ _ _ _ hne
  have hmeta' : (!truthyO t.artist && !truthyO t.title) = false := by
    rcases hmeta with h | h <;> simp [h]
  have hie : (searchRecordings env.mb t.artist t.title t.album).isEmpty = false := by
    rcases hse : searchRecordings env.mb t.artist t.title t.album with _ | ⟨x, xs⟩
    · exact absurd hse hne
    · rfl
  have hamb : ambiguityReasons s0 c0 ((s1, c1) :: tl)
      = ["multiple_high_confidence_disagree"] := by
    show (if REVIEW_THRESHOLD ≤ s1 ∧ s0 - s1 < 1 / 10 ∧
        normalize (pyStr (optPV c0.title)) ≠ normalize (pyStr (optPV c1.title)) then
        ["multiple_high_confidence_disagree"] else []) = ["multiple_high_confidence_disagree"]
    rw [if_pos ⟨h1, hgap, hti⟩]
  unfold enrichTrack
  dsimp only
  rw [hmeta']
  simp only [Bool.false_eq_true, if_false, hie, hr]
  rw [hamb]
  by_cases hA : AUTO_ACCEPT_THRESHOLD ≤ s0
  · rw [if_pos hA]
    exact enrichMain_review_isSome env outputDir skipArtwork dryRun t c0 s0
      ((s1, c1) :: tl) "auto_accepted" _ (by simp)
  · rw [if_neg hA, if_pos h0]
    exact enrichMain_review_isSome env outputDir skipArtwork dryRun t c0 s0
      ((s1, c1) :: tl) "review_needed" _ (by simp)

/-- Claim C4 witness: a concrete two-candidate run (best score 1, second
0.965, titles normalizing differently) carries a review entry even
though the best candidate auto-accepts. -/
theorem ambiguity_forces_review_witness :
    (enrichTrack ambEnv "out" true false ambTrack).review.isSome = true :=
  ambiguity_forces_review ambEnv "out" true false ambTrack
    1 ambCand1 (193 / 200) ambCand2 []
    (by decide) (by decide) (by decide) (by decide) (by decide)

/-- Claim C6: with at least one candidate and the best score strictly
under the REVIEW threshold 0.50, `enrich_track` reports status
`below_threshold`, applies no updates, and produces no review entry. -/
theorem below_threshold_no_updates
    (env : Collab) (outputDir : String) (skipArtwork dryRun : Bool) (t : Track)
    (s0 : ℚ) (c0 : Candidate) (tl : List (ℚ × Candidate))
    (hr : rankCandidates t (searchRecordings env.mb t.artist t.title t.album)
            = (s0, c0) :: tl)
    (hs : s0 < REVIEW_THRESHOLD) :
    (enrichTrack env outputDir skipArtwork dryRun t).enrichment.status = "below_threshold" ∧
    (enrichTrack env outputDir skipArtwork dryRun t).updates = [] ∧
    (enrichTrack env outputDir skipArtwork dryRun t).review = Option.none := by
  have hlen : (searchRecordings env.mb t.artist t.title t.album).length = tl.length + 1 := by
    have hq := rankCandidates_length t (searchRecordings env.mb t.artist t.title t.album)
    rw [hr] at hq
    simpa using hq.symm
  have hne : searchRecordings env.mb t.artist t.title t.album ≠ [] := by
    intro hh
    rw [hh] at hlen
    simp at hlen
  have hmeta := searchRecordings_ne_nil _ _ _ _ hne
  have hmeta' : (!truthyO t.artist && !truthyO t.title) = false := by
    rcases hmeta with h | h <;> simp [h]
  have hie : (searchRecordings env.mb t.artist t.title t.album).isEmpty = false := by
    rcases hse : searchRecordings env.mb t.artist t.title t.album with _ | ⟨x, xs⟩
    · exact absurd hse hne
    · rfl
  have hA : ¬ AUTO_ACCEPT_THRESHOLD ≤ s0 := by
    rw [not_le]
    calc s0 < REVIEW_THRESHOLD := hs
    _ ≤ AUTO_ACCEPT_THRESHOLD := by norm_num [REVIEW_THRESHOLD, AUTO_ACCEPT_THRESHOLD]
  have hR : ¬ REVIEW_THRESHOLD ≤ s0 := not_le.mpr hs
  unfold enrichTrack
  dsimp only
  rw [hmeta']
  simp only [Bool.false_eq_true, if_false, hie, hr]
  rw [if_neg hA, if_neg hR]
  exact ⟨rfl, rfl, rfl⟩

/-- Claim C6 witness: a single candidate scoring 0 yields status
`below_threshold` with no updates and no review entry. -/
theorem below_threshold_no_updates_witness :
    (enrichTrack lowEnv "out" false false lowTrack).enrichment.status = "below_threshold" ∧
    (enrichTrack lowEnv "out" false false lowTrack).updates = [] ∧
    (enrichTrack lowEnv "out" false false lowTrack).review = Option.none :=
  below_threshold_no_updates lowEnv "out" false false lowTrack
    0 lowCand [] (by decide) (by decide)

/-- Claim C9: `enrich_track` invokes the scorer and the resolver with the
default source count of 1, so no conflict it records is ever classified
`likely_correction`, and the multi-source bonus is never added (the
score with source count 1 is exactly the rounded weighted sum). -/
theorem single_source_never_likely_correction
    (env : Collab) (outputDir : String) (skipArtwork dryRun : Bool)
    (t : Track) (c : Candidate) :
    ((enrichTrack env outputDir skipArtwork dryRun t).enrichment.conflicts.all
        (fun cf => !cf.isLikelyCorrection)) = true
    ∧ score t c 1 = roundTo 4 (weightedTotal t c) := by
  constructor
  · rw [List.all_eq_true]
    intro cf hcf
    rw [enrichTrack_conflicts env outputDir skipArtwork dryRun t cf hcf]
    rfl
  · simp [score]

/-- Claim C1 (divergence witness): on the Bowie/Heroes input the dry-run
call of `enrich_track` returns an empty `updates` mapping while the real
run returns `year = 1977`, and the dry-run enrichment still lists `year`
in `fields_updated`.  The dry-run report therefore stores empty
`proposed_updates`, so the replay path of `main` applies nothing where a
direct real run applies the year. -/
theorem dryrun_updates_divergence :
    (enrichTrack bowieEnv "out" false true bowieTrack).updates = [] ∧
    (enrichTrack bowieEnv "out" false false bowieTrack).updates
      = [("year", PyVal.int 1977)] ∧
    (enrichTrack bowieEnv "out" false true bowieTrack).enrichment.fields_updated
      = ["year"] ∧
    (enrichTrack bowieEnv "out" false true bowieTrack).enrichment
      = (enrichTrack bowieEnv "out" false false bowieTrack).enrichment := by
  decide

/-- Claim C2: the Bowie/Heroes end-to-end scenario scores 0.70, lands in
`review_needed`, classifies `year` as a supplement, and a real run
writes `year = 1977` into the returned updates since 0.70 clears the
0.50 REVIEW threshold. -/
theorem bowie_heroes_end_to_end :
    (enrichTrack bowieEnv "out" false false bowieTrack).enrichment.match_confidence
      = 7 / 10 ∧
    REVIEW_THRESHOLD ≤ (7 / 10 : ℚ) ∧
    (enrichTrack bowieEnv "out" false false bowieTrack).enrichment.status
      = "review_needed" ∧
    resolve "year" PyVal.none (PyVal.int 1977) 1
      = Resolution.supplement (PyVal.int 1977) ∧
    (enrichTrack bowieEnv "out" false false bowieTrack).updates
      = [("year", PyVal.int 1977)] ∧
    (enrichTrack bowieEnv "out" false false bowieTrack).enrichment.fields_updated
      = ["year"] := by
  decide

/-- Claim C3 (counterexample): self-similarity fails on the empty
string, where `string_similarity` returns 0, not 1. -/
theorem similarity_identity_cex :
    string_similarity "" "" = 0 ∧ string_similarity "" "" ≠ 1 := by
  decide

/-- Claim C3 (amended): self-similarity is 1 for every nonempty string,
similarity of an empty string against anything is 0, and similarity is
symmetric for all strings. -/
theorem string_similarity_props :
    (∀ a : String, a ≠ "" → string_similarity a a = 1) ∧
    string_similarity "" "x" = 0 ∧
    (∀ a b : String, string_similarity a b = string_similarity b a) := by
  refine ⟨fun a ha => ?_, by decide, fun a b => ?_⟩
  · simp [string_similarity, ha]
  · by_cases ha : a = ""
    · simp [string_similarity, ha]
    · by_cases hb : b = ""
      · simp [string_similarity, ha, hb]
      · unfold string_similarity
        rw [if_neg (show ¬(a = "" ∨ b = "") by simp [ha, hb]),
          if_neg (show ¬(b = "" ∨ a = "") by simp [ha, hb])]
        by_cases hn : normalize a = normalize b
        · rw [if_pos hn, if_pos hn.symm]
        · rw [if_neg hn, if_neg (Ne.symm hn)]
          by_cases ht : token_set a = ∅ ∨ token_set b = ∅
          · rw [if_pos ht, if_pos (Or.symm ht)]
          · rw [if_neg ht, if_neg (fun hh => ht (Or.symm hh))]
            rw [Finset.inter_comm, Finset.union_comm]

/-- Claim C3 witness: the amended identity applied at a concrete
nonempty string. -/
theorem string_similarity_props_witness :
    ("abc" : String) ≠ "" ∧ string_similarity "abc" "abc" = 1 :=
  ⟨by decide, string_similarity_props.1 "abc" (by decide)⟩

/-- Claim C5: the four specified resolver calls yield, in rule order,
supplement, confirmed, likely correction, and alternative. -/
theorem resolve_rule_order :
    resolve "artist" PyVal.none (PyVal.str "Bowie") 1
      = Resolution.supplement (PyVal.str "Bowie") ∧
    resolve "artist" (PyVal.str "Bowie") (PyVal.str "bowie") 1
      = Resolution.confirmed ∧
    resolve "artist" (PyVal.str "Bowie") (PyVal.str "Prince") 2
      = Resolution.likelyCorrection (PyVal.str "Bowie") (PyVal.str "Prince") 0 ∧
    resolve "artist" (PyVal.str "Bowie") (PyVal.str "Prince") 1
      = Resolution.alternative (PyVal.str "Prince") := by
  decide

/-- Claim C7: `should_upgrade` holds exactly when the new score beats
the existing one by more than the margin of 10, with the two boundary
cases, and the reference artwork scores 100. -/
theorem artwork_selector_props :
    (∀ existing_score new_score : ℤ,
      should_upgrade existing_score new_score = true ↔
        existing_score + 10 < new_score) ∧
    should_upgrade 50 60 = false ∧
    should_upgrade 50 61 = true ∧
    score_artwork 1200 "coverartarchive" "front" "jpeg" = 100 := by
  refine ⟨fun e n => ?_, by decide, by decide, by decide⟩
  simp [should_upgrade, ART_UPGRADE_MARGIN]

/-- Claim C10: the noise markers are removed by plain substring
replacement, so `normalize` mangles `defeat.` into `de`; hence
`string_similarity` rates `defeat.` identical to `de` and completely
different from `defeat`. -/
theorem normalize_substring_mangling :
    normalize "defeat." = "de" ∧
    string_similarity "defeat." "de" = 1 ∧
    string_similarity "defeat." "defeat" = 0 := by
  decide

/-! ## Helper lemmas for the offline fallback -/

theorem assocSet_of_notMem {α : Type} (d : List (String × α)) (k : String) (v : α)
    (h : k ∉ d.map Prod.fst) : assocSet d k v = d ++ [(k, v)] := by
  induction d with
  | nil => rfl
  | cons p rest ih =>
    obtain ⟨k', v'⟩ := p
    simp only [List.map_cons, List.mem_cons] at h
    push_neg at h
    obtain ⟨h1, h2⟩ := h
    unfold assocSet
    rw [if_neg (fun e => h1 e.symm)]
    rw [ih h2]
    simp

theorem foldl_assocSet_map (f : List (String × CatVal) → String × List (String × CatVal)) :
    ∀ (ts : List (List (String × CatVal))) (acc : List (String × List (String × CatVal))),
      (ts.map fun t => (f t).1).Nodup →
      (∀ t ∈ ts, (f t).1 ∉ acc.map Prod.fst) →
      ts.foldl (fun acc t => assocSet acc (f t).1 (f t).2) acc
        = acc ++ ts.map (fun t => ((f t).1, (f t).2)) := by
  intro ts
  induction ts with
  | nil => intro acc _ _; simp
  | cons t ts ih =>
    intro acc hnd hacc
    simp only [List.map_cons, List.nodup_cons] at hnd
    obtain ⟨hhead, htail⟩ := hnd
    rw [List.foldl_cons, assocSet_of_notMem acc (f t).1 (f t).2 (hacc t (by simp))]
    rw [ih (acc ++ [((f t).1, (f t).2)]) htail ?_]
    · simp
    · intro t' ht'
      simp only [List.map_append, List.mem_append]
      push_neg
      constructor
      · exact hacc t' (List.mem_cons_of_mem t ht')
      · intro hmem
        simp only [List.map_cons, List.map_nil, List.mem_singleton] at hmem
        exact hhead (hmem ▸ List.mem_map_of_mem (fun t => (f t).1) ht')

/-- Claim C8 (counterexample): on a list-keyed catalog whose single
track has no `original_filename`, the offline fallback adds that field
(via the `setdefault` in `_normalize_input`), so a field other than
`enrichment` does change. -/
theorem offline_list_adds_filename_cex :
    (runOfflineFallback "T0"
        { tracks := TracksShape.listKeyed [[("id", CatVal.prim (PyVal.str "t1"))]],
          meta := [] }).tracks
      = TracksShape.listKeyed
          [[("id", CatVal.prim (PyVal.str "t1")),
            ("original_filename", CatVal.prim (PyVal.str "t1")),
            ("enrichment",
              CatVal.enr { status := "skipped", reason := "offline", timestamp := "T0" })]] ∧
    List.lookup "original_filename" [("id", CatVal.prim (PyVal.str "t1"))]
      = Option.none := by
  decide

/-- Claim C8 (amended): the offline fallback gives every track the
skipped/offline enrichment record; on dict-keyed input every other track
field is untouched; on list-keyed input (with distinct resolved track
keys) every other field is untouched except that `original_filename` is
filled with the basename of the resolved track key when absent, and a
top-level `generated` timestamp is set. -/
theorem offline_fallback_amended :
    (∀ (now : String) (meta : List (String × PyVal))
        (ts : List (String × List (String × CatVal))),
      runOfflineFallback now { tracks := TracksShape.dictKeyed ts, meta := meta }
        = { tracks := TracksShape.dictKeyed
              (ts.map fun kt => (kt.1, assocSet kt.2 "enrichment" (offEnr now))),
            meta := meta })
    ∧ (∀ (now : String) (meta : List (String × PyVal))
          (ts : List (List (String × CatVal))),
        (ts.map fun t => (listTrackPrep t).1).Nodup →
        runOfflineFallback now { tracks := TracksShape.listKeyed ts, meta := meta }
          = { tracks := TracksShape.listKeyed
                (ts.map fun t => assocSet (listTrackPrep t).2 "enrichment" (offEnr now)),
              meta := assocSet meta "generated" (PyVal.str now) }) := by
  constructor
  · intro now meta ts
    rfl
  · intro now meta ts hnd
    unfold runOfflineFallback normalizeInput
    dsimp only
    rw [foldl_assocSet_map listTrackPrep ts [] hnd (by simp)]
    simp [List.map_map, Function.comp]

/-- Claim C8 witness: the amended list-keyed statement applied to a
concrete one-track catalog with distinct keys. -/
theorem offline_fallback_amended_witness :
    (([[("id", CatVal.prim (PyVal.str "t1"))]].map
        fun t => (listTrackPrep t).1).Nodup) ∧
    runOfflineFallback "T1"
        { tracks := TracksShape.listKeyed [[("id", CatVal.prim (PyVal.str "t1"))]],
          meta := [] }
      = { tracks := TracksShape.listKeyed
            ([[("id", CatVal.prim (PyVal.str "t1"))]].map
              fun t => assocSet (listTrackPrep t).2 "enrichment" (offEnr "T1")),
          meta := assocSet [] "generated" (PyVal.str "T1") } :=
  ⟨by decide,
   offline_fallback_amended.2 "T1" [] [[("id", CatVal.prim (PyVal.str "t1"))]] (by decide)⟩

end Crate
